import Mathlib

/-!
Verification of the call-response correlation and event demultiplexing engine
in `src/connection.rs` (`Connection`), via a shallow embedding.

The `cdtp` module (message types and `parse_raw_message`), the
`waiting_call_registry` module and the `errors` module are part of the
repository but their sources are not available here; their data shapes are
modelled from the specification (wire format in the spec, registry contract
in the spec) and `parse_raw_message` is kept as an explicit function
parameter, exactly as the dispatcher in `connection.rs` treats it: an opaque
decoding step applied to each text frame and to the inner string of
`Target.receivedMessageFromTarget` events.
-/

/-- Modelled from the spec: CallId is a monotonic, per-connection
non-negative integer (`cdtp::CallId` is not under `src/`). -/
abbrev CallId := Nat

/-- A JSON value, standing in for `serde_json::Value`: the opaque `params`
and `result` payloads carried by envelopes. -/
inductive JsonValue where
  | null
  | bool (b : Bool)
  | num (n : Int)
  | str (s : String)
  | arr (elems : List JsonValue)
  | obj (fields : List (String × JsonValue))

/-- Modelled from the spec: the error object a Response may carry instead of
a result, with fields code and message (`cdtp::Response` is not under
`src/`; the spec wire format gives code as int and message as string). -/
structure ProtocolError where
  code : Int
  message : String

/-- Modelled from the spec: a Response envelope correlated by CallId, with
an opaque result payload and an optional error (`cdtp::Response` is not
under `src/`). `connection.rs` reads only the `result` field. -/
structure Response where
  id : CallId
  result : JsonValue
  error : Option ProtocolError

/-- Modelled from the spec: the params of a `Target.receivedMessageFromTarget`
event; the `message` field is the raw text of a complete inner envelope. -/
structure TargetMessageParams where
  session_id : String
  target_id : String
  message : String

/-- Modelled from the spec: the event struct carried by the
`ReceivedMessageFromTarget` variant; `connection.rs` accesses
`target_message_event.params.message`. -/
structure ReceivedMessageFromTargetEvent where
  params : TargetMessageParams

/-- Modelled from the spec: `cdtp::EventMessage` (not under `src/`).
`connection.rs` matches the `ReceivedMessageFromTarget` variant and treats
every other event variant uniformly (the wildcard arm), so all other events
are modelled by one variant carrying the event name and params. -/
inductive EventMessage where
  | receivedMessageFromTarget (e : ReceivedMessageFromTargetEvent)
  | otherEvent (name : String) (params : JsonValue)

/-- Modelled from the spec: `cdtp::Message`, the decoded envelope — either a
Response or an Event (`cdtp` is not under `src/`). -/
inductive Message where
  | response (r : Response)
  | event (e : EventMessage)

/-- The websocket crate's receive error, reduced to the two cases
`connection.rs` distinguishes: `NoDataAvailable` and everything else. -/
inductive WebSocketError where
  | noDataAvailable
  | other (description : String)

/-- The websocket crate's frame type, reduced to the two cases
`connection.rs` distinguishes: `Text` and everything else. -/
inductive OwnedMessage where
  | text (s : String)
  | nonText (description : String)

/-- The ways the code in `connection.rs` aborts by panicking (`unwrap`,
`expect`, explicit panic macros). -/
inductive PanicKind where
  | unhandledWebSocketError (description : String)
  | weirdMessage (description : String)
  | sendMessageFailed
  | recvFailed
  | deserializeFailed

/-- The inner match of `dispatch_incoming_messages` on a decoded message
(lines 66-82 of `connection.rs`): a Response goes to the
browser-responses channel; a `ReceivedMessageFromTarget` event has its inner
`params.message` string re-parsed and the result goes to the target-messages
channel; any other event is only traced (dropped). Returns the pair
(messages sent on the target-messages channel,
 responses sent on the browser-responses channel). -/
def dispatchMessage (parse_raw_message : String → Message) (message : Message) :
    List Message × List Response :=
  match message with
  | .response response => ([], [response])
  | .event event =>
    match event with
    | .receivedMessageFromTarget target_message_event =>
        ([parse_raw_message target_message_event.params.message], [])
    | .otherEvent _ _ => ([], [])

/-- Output of a dispatcher run: everything sent on the target-messages
channel, everything sent on the browser-responses channel, and whether the
thread panicked (and why) or the incoming iterator was exhausted. -/
structure DispatchResult where
  targetMessages : List Message
  browserResponses : List Response
  panicked : Option PanicKind

/-- `Connection::dispatch_incoming_messages` (lines 49-89 of
`connection.rs`) over a finite incoming stream: an `Err(NoDataAvailable)`
item is skipped, any other receive error panics the thread, a text frame is
parsed and dispatched via `dispatchMessage`, a non-text frame panics the
thread. A panic ends the run immediately. -/
def dispatch_incoming_messages (parse_raw_message : String → Message) :
    List (Except WebSocketError OwnedMessage) → DispatchResult
  | [] => { targetMessages := [], browserResponses := [], panicked := none }
  | ws_message :: rest =>
    match ws_message with
    | .error werror =>
      match werror with
      | .noDataAvailable => dispatch_incoming_messages parse_raw_message rest
      | .other d =>
          { targetMessages := [], browserResponses := [],
            panicked := some (.unhandledWebSocketError d) }
    | .ok message =>
      match message with
      | .text message_string =>
          let out := dispatchMessage parse_raw_message (parse_raw_message message_string)
          let restResult := dispatch_incoming_messages parse_raw_message rest
          { targetMessages := out.1 ++ restResult.targetMessages,
            browserResponses := out.2 ++ restResult.browserResponses,
            panicked := restResult.panicked }
      | .nonText d =>
          { targetMessages := [], browserResponses := [],
            panicked := some (.weirdMessage d) }

/-- Specification-side extraction: the re-parsed inner envelopes of exactly
the `Target.receivedMessageFromTarget` events of a decoded frame sequence,
in order. -/
def targetForwards (parse_raw_message : String → Message) (msgs : List Message) :
    List Message :=
  msgs.filterMap fun m =>
    match m with
    | .event (.receivedMessageFromTarget e) => some (parse_raw_message e.params.message)
    | _ => none

/-- Specification-side extraction: exactly the response frames of a decoded
frame sequence, in order. -/
def responseForwards (msgs : List Message) : List Response :=
  msgs.filterMap fun m =>
    match m with
    | .response r => some r
    | _ => none

/-- C2: for every finite sequence of text frames, the dispatcher sends on
the target-messages channel exactly the re-parsed inner envelopes of the
decoded frames that are `Target.receivedMessageFromTarget` events, in
arrival order; the browser-responses channel gets exactly the response
frames in order; in particular no response and no other event ever reaches
the target-messages channel. -/
theorem dispatcher_event_split (parse_raw_message : String → Message)
    (frames : List String) :
    dispatch_incoming_messages parse_raw_message
        (frames.map fun s => Except.ok (OwnedMessage.text s))
      = { targetMessages := targetForwards parse_raw_message (frames.map parse_raw_message),
          browserResponses := responseForwards (frames.map parse_raw_message),
          panicked := none } := by
  induction frames with
  | nil => rfl
  | cons s rest ih =>
      simp only [List.map_cons, dispatch_incoming_messages, ih, targetForwards,
        responseForwards, List.filterMap_cons]
      cases hm : parse_raw_message s with
      | response r =>
          simp [dispatchMessage, targetForwards, responseForwards]
      | event e =>
          cases e with
          | receivedMessageFromTarget tme =>
              simp [dispatchMessage, targetForwards, responseForwards]
          | otherEvent n p =>
              simp [dispatchMessage, targetForwards, responseForwards]

/-- A concrete decode function used to instantiate hypotheses at concrete
inputs; its frame names follow the spec's scenario S3. -/
def parseDemo : String → Message := fun s =>
  if s = "respFrame" then
    .response { id := 0, result := .obj [("browserContextId", .str "C1")], error := none }
  else if s = "targetFrame" then
    .event (.receivedMessageFromTarget
      { params := { session_id := "S", target_id := "T", message := "innerFrame" } })
  else if s = "innerFrame" then
    .response { id := 7, result := .obj [("ok", .bool true)], error := none }
  else
    .event (.otherEvent "Target.targetCreated" (.obj []))

/-- C3: a `Target.receivedMessageFromTarget` frame makes the dispatcher
forward, on the target-messages channel, exactly the result of applying the
codec's parse function to the raw inner `params.message` string — the
forwarded value is structurally equal to that parse result. -/
theorem inner_envelope_forwarded (parse_raw_message : String → Message)
    (s : String) (e : ReceivedMessageFromTargetEvent)
    (rest : List (Except WebSocketError OwnedMessage))
    (h : parse_raw_message s = .event (.receivedMessageFromTarget e)) :
    (dispatch_incoming_messages parse_raw_message (.ok (.text s) :: rest)).targetMessages
      = parse_raw_message e.params.message
          :: (dispatch_incoming_messages parse_raw_message rest).targetMessages := by
  simp [dispatch_incoming_messages, h, dispatchMessage]

/-- Witness for C3 at the spec's scenario S3: the inner string of the target
frame parses to the response with id 7 and that exact value is forwarded. -/
theorem inner_envelope_forwarded_witness :
    parseDemo "targetFrame"
        = .event (.receivedMessageFromTarget
            { params := { session_id := "S", target_id := "T", message := "innerFrame" } })
      ∧ (dispatch_incoming_messages parseDemo [.ok (.text "targetFrame")]).targetMessages
        = parseDemo "innerFrame"
            :: (dispatch_incoming_messages parseDemo []).targetMessages :=
  ⟨rfl, inner_envelope_forwarded parseDemo "targetFrame"
    { params := { session_id := "S", target_id := "T", message := "innerFrame" } } [] rfl⟩

/-- C9: an event that is not `Target.receivedMessageFromTarget` produces no
output at all — the dispatcher state after such a frame equals the state
without it: nothing is sent on the target-messages channel, nothing on the
browser-responses channel, and the model has no third channel because
`connection.rs` creates none (the wildcard arm only logs a trace line). -/
theorem other_events_are_dropped (parse_raw_message : String → Message)
    (s : String) (name : String) (params : JsonValue)
    (rest : List (Except WebSocketError OwnedMessage))
    (h : parse_raw_message s = .event (.otherEvent name params)) :
    dispatch_incoming_messages parse_raw_message (.ok (.text s) :: rest)
      = dispatch_incoming_messages parse_raw_message rest := by
  simp [dispatch_incoming_messages, h, dispatchMessage]

/-- Witness for C9: a frame decoding to a `Target.targetCreated` event
leaves the dispatcher output exactly as if the frame had not arrived. -/
theorem other_events_are_dropped_witness :
    parseDemo "eventFrame" = .event (.otherEvent "Target.targetCreated" (.obj []))
      ∧ dispatch_incoming_messages parseDemo [.ok (.text "eventFrame"), .ok (.text "respFrame")]
        = dispatch_incoming_messages parseDemo [.ok (.text "respFrame")] :=
  ⟨rfl, other_events_are_dropped parseDemo "eventFrame" "Target.targetCreated" (.obj [])
    [.ok (.text "respFrame")] rfl⟩

/-- C6 evidence: the dispatcher skips `Err(NoDataAvailable)` and keeps
processing (the response frame after it is still delivered), but on any
other receive error the thread panics at once: later frames are not
processed, no registry cleanup action exists in
`dispatch_incoming_messages`, and the run ends in a panic, not in an
orderly terminating state. -/
theorem receive_error_panics_dispatcher :
    dispatch_incoming_messages parseDemo
        [.error .noDataAvailable, .ok (.text "respFrame"),
         .error (.other "broken pipe"), .ok (.text "targetFrame")]
      = { targetMessages := [],
          browserResponses :=
            [{ id := 0, result := .obj [("browserContextId", .str "C1")], error := none }],
          panicked := some (.unhandledWebSocketError "broken pipe") } := by
  rfl

/-- The serialized request envelope: the fields `connection.rs` puts on the
wire for a call, per the spec wire format
(id as int, method as string, params as value). -/
structure MethodCall where
  id : CallId
  method : String
  params : JsonValue

/-- A typed CDP command as `call_method` consumes it: a `command_name` and a
params payload (the `cdp` crate types are external; only these two
projections are used by `connection.rs`). -/
structure Command where
  command_name : String
  params : JsonValue

/-- Modelled from the spec: the error taxonomy of the `errors` module (not
under `src/`): Closed, ShapeMismatch and Protocol with code and message. -/
inductive ConnectionError where
  | closed
  | shapeMismatch
  | protocol (code : Int) (message : String)

/-- The observable state of a `Connection`: the `next_call_id` counter, the
ids currently registered in the waiting-call registry (modelled from the
spec registry contract: `register` inserts the id), and the envelopes
written to the websocket sender, in order. -/
structure Connection where
  next_call_id : CallId
  pending_calls : List CallId
  sent_frames : List MethodCall

/-- `Connection::new` (lines 42-46 of `connection.rs`): a fresh registry, a
fresh sender and `next_call_id: 0`. -/
def Connection.new : Connection :=
  { next_call_id := 0, pending_calls := [], sent_frames := [] }

/-- One observable step of a call invocation, in program order:
reading-and-incrementing `next_call_id`, invoking `send_message` on the
sender, invoking `register_call` on the registry, invoking `recv` on the
slot receiver. -/
inductive CallStep where
  | allocId (id : CallId)
  | sendFrame (frame : MethodCall)
  | registerCall (id : CallId)
  | recvResponse

/-- The outcome of one call invocation: the connection state afterwards, the
steps performed in program order (a failed `send_message` still appears as
its `sendFrame` step: the send was attempted), and either a panic or the
Rust `Result` value returned. -/
structure CallExec (R : Type) where
  conn : Connection
  trace : List CallStep
  outcome : Except PanicKind (Except ConnectionError R)

/-- `Connection::call_method` (lines 121-142 of `connection.rs`): read
`next_call_id` and increment it; build the envelope from the command's name,
the id and the command as params; `send_message(..).unwrap()`  — a send
failure panics right here; then `register_call(call_id)`; then
`recv().unwrap()` — a receive failure (slot disconnection) panics; then
`serde_json::from_value::<R>(raw_response.result).unwrap()` — a decode
failure panics; otherwise return `Ok`. The send outcome, the received
response and the typed decode are the explicit oracles `send_fails`,
`recv_result` and `decode`. -/
def call_method {R : Type} (decode : JsonValue → Option R) (command : Command)
    (send_fails : Bool) (recv_result : Option Response) (self : Connection) :
    CallExec R :=
  let call_id := self.next_call_id
  let self1 : Connection := { self with next_call_id := self.next_call_id + 1 }
  let method : MethodCall :=
    { id := call_id, method := command.command_name, params := command.params }
  if send_fails then
    { conn := self1, trace := [.allocId call_id, .sendFrame method],
      outcome := .error .sendMessageFailed }
  else
    let self2 : Connection := { self1 with sent_frames := self1.sent_frames ++ [method] }
    let self3 : Connection := { self2 with pending_calls := self2.pending_calls ++ [call_id] }
    let tr : List CallStep :=
      [.allocId call_id, .sendFrame method, .registerCall call_id, .recvResponse]
    match recv_result with
    | none => { conn := self3, trace := tr, outcome := .error .recvFailed }
    | some raw_response =>
      match decode raw_response.result with
      | none => { conn := self3, trace := tr, outcome := .error .deserializeFailed }
      | some method_response =>
          { conn := self3, trace := tr, outcome := .ok (.ok method_response) }

/-- `Connection::call` (lines 105-119 of `connection.rs`): build the
envelope with `method.to_method_call()` (the id comes from the method
object; `next_call_id` is not read); `send_message(..).unwrap()` — a send
failure panics; then `register_call(call.id)`; then `recv().unwrap()`; then
`serde_json::from_value(response.result).unwrap()`; otherwise return `Ok`.
`to_method_call` lives in the `cdtp` module (not under `src/`) and is kept
as an explicit function parameter. -/
def call {M R : Type} (to_method_call : M → MethodCall)
    (decode : JsonValue → Option R) (method : M)
    (send_fails : Bool) (recv_result : Option Response) (self : Connection) :
    CallExec R :=
  let theCall := to_method_call method
  if send_fails then
    { conn := self, trace := [.sendFrame theCall],
      outcome := .error .sendMessageFailed }
  else
    let self1 : Connection := { self with sent_frames := self.sent_frames ++ [theCall] }
    let self2 : Connection := { self1 with pending_calls := self1.pending_calls ++ [theCall.id] }
    let tr : List CallStep := [.sendFrame theCall, .registerCall theCall.id, .recvResponse]
    match recv_result with
    | none => { conn := self2, trace := tr, outcome := .error .recvFailed }
    | some response =>
      match decode response.result with
      | none => { conn := self2, trace := tr, outcome := .error .deserializeFailed }
      | some result =>
          { conn := self2, trace := tr, outcome := .ok (.ok result) }

/-- Whether a call step is the transport send. -/
def CallStep.isSend : CallStep → Bool
  | .sendFrame _ => true
  | _ => false

/-- Whether a call step is the registry registration. -/
def CallStep.isRegister : CallStep → Bool
  | .registerCall _ => true
  | _ => false

/-- Index of the transport send in a call trace. -/
def sendIdx (tr : List CallStep) : Nat := tr.findIdx CallStep.isSend

/-- Index of the registry registration in a call trace. -/
def registerIdx (tr : List CallStep) : Nat := tr.findIdx CallStep.isRegister

/-- A concrete command used to instantiate the call model at concrete
inputs (the spec's scenario S1). -/
def demoCommand : Command :=
  { command_name := "Target.createBrowserContext", params := .obj [] }

/-- A concrete successful response for the demo command. -/
def demoResponse : Response :=
  { id := 0, result := .obj [("browserContextId", .str "C1")], error := none }

/-- C5 counterexample: on a successful `call_method` invocation from a fresh
connection, the registry registration does NOT precede the transport send —
`connection.rs` line 135 sends before line 136 registers. -/
theorem register_before_send_refuted :
    ¬ registerIdx (call_method (fun v => some v) demoCommand false
          (some demoResponse) Connection.new).trace
      < sendIdx (call_method (fun v => some v) demoCommand false
          (some demoResponse) Connection.new).trace := by
  decide

/-- C5 amended: in every invocation of `call` or `call_method`, the
serialized envelope is sent on the transport strictly before the call id is
registered with the waiting-call registry (when the send fails the
registration never happens at all, so the send index is still smaller). -/
theorem send_precedes_register {M R : Type} (to_method_call : M → MethodCall)
    (decode : JsonValue → Option R) (m : M) (command : Command)
    (sf tf : Bool) (rr rr2 : Option Response) (conn conn2 : Connection) :
    sendIdx (call to_method_call decode m sf rr conn).trace
        < registerIdx (call to_method_call decode m sf rr conn).trace
  ∧ sendIdx (call_method decode command tf rr2 conn2).trace
        < registerIdx (call_method decode command tf rr2 conn2).trace := by
  constructor
  · cases sf with
    | true =>
        simp [call, sendIdx, registerIdx, List.findIdx_cons,
          CallStep.isSend, CallStep.isRegister]
    | false =>
        cases rr with
        | none =>
            simp [call, sendIdx, registerIdx, List.findIdx_cons,
              CallStep.isSend, CallStep.isRegister]
        | some r =>
            cases h : decode r.result with
            | none =>
                simp [call, h, sendIdx, registerIdx, List.findIdx_cons,
                  CallStep.isSend, CallStep.isRegister]
            | some v =>
                simp [call, h, sendIdx, registerIdx, List.findIdx_cons,
                  CallStep.isSend, CallStep.isRegister]
  · cases tf with
    | true =>
        simp [call_method, sendIdx, registerIdx, List.findIdx_cons,
          CallStep.isSend, CallStep.isRegister]
    | false =>
        cases rr2 with
        | none =>
            simp [call_method, sendIdx, registerIdx, List.findIdx_cons,
              CallStep.isSend, CallStep.isRegister]
        | some r =>
            cases h : decode r.result with
            | none =>
                simp [call_method, h, sendIdx, registerIdx, List.findIdx_cons,
                  CallStep.isSend, CallStep.isRegister]
            | some v =>
                simp [call_method, h, sendIdx, registerIdx, List.findIdx_cons,
                  CallStep.isSend, CallStep.isRegister]

/-- C4 evidence: when the transport send fails, `call_method` panics (no
`Err` is surfaced at all), and because `register_call` only runs after a
successful send, the registry holds no entry for the allocated id — there is
no removal step; the id counter was nevertheless consumed. -/
theorem send_failure_panics_no_cleanup :
    (call_method (fun v => some v) demoCommand true none Connection.new).outcome
        = .error .sendMessageFailed
  ∧ (call_method (fun v => some v) demoCommand true none Connection.new).conn.pending_calls
        = []
  ∧ (call_method (fun v => some v) demoCommand true none Connection.new).conn.sent_frames
        = []
  ∧ (call_method (fun v => some v) demoCommand true none Connection.new).conn.next_call_id
        = 1 :=
  ⟨rfl, rfl, rfl, rfl⟩

/-- A response carrying an error field and no meaningful result, the spec's
scenario S4. -/
def errorResponse : Response :=
  { id := 0, result := .null, error := some { code := -32601, message := "unknown" } }

/-- C7 evidence: `call_method` reads only `response.result` and never looks
at the error field: with a decode that rejects the null result the caller
panics on the `unwrap`, and with a decode that accepts it the caller gets
`Ok` — in neither case is `ConnectionError.protocol` ever produced. -/
theorem error_field_is_ignored :
    (call_method (fun _ => (none : Option JsonValue)) demoCommand false
        (some errorResponse) Connection.new).outcome
      = .error .deserializeFailed
  ∧ (call_method (fun _ => some (JsonValue.obj [])) demoCommand false
        (some errorResponse) Connection.new).outcome
      = .ok (.ok (JsonValue.obj [])) :=
  ⟨rfl, rfl⟩

/-- C8: every invocation of `call` or `call_method` either panics or returns
`Ok`; the `Err` variant of the returned `Result` is never constructed. -/
theorem call_never_returns_err {M R : Type} (to_method_call : M → MethodCall)
    (decode : JsonValue → Option R) (m : M) (command : Command)
    (sf tf : Bool) (rr rr2 : Option Response) (conn conn2 : Connection) :
    ((∃ k, (call to_method_call decode m sf rr conn).outcome = .error k)
      ∨ (∃ v, (call to_method_call decode m sf rr conn).outcome = .ok (.ok v)))
  ∧ ((∃ k, (call_method decode command tf rr2 conn2).outcome = .error k)
      ∨ (∃ v, (call_method decode command tf rr2 conn2).outcome = .ok (.ok v))) := by
  constructor
  · cases sf with
    | true => exact Or.inl ⟨.sendMessageFailed, rfl⟩
    | false =>
        cases rr with
        | none => exact Or.inl ⟨.recvFailed, rfl⟩
        | some r =>
            cases h : decode r.result with
            | none => exact Or.inl ⟨.deserializeFailed, by simp [call, h]⟩
            | some v => exact Or.inr ⟨v, by simp [call, h]⟩
  · cases tf with
    | true => exact Or.inl ⟨.sendMessageFailed, rfl⟩
    | false =>
        cases rr2 with
        | none => exact Or.inl ⟨.recvFailed, rfl⟩
        | some r =>
            cases h : decode r.result with
            | none => exact Or.inl ⟨.deserializeFailed, by simp [call_method, h]⟩
            | some v => exact Or.inr ⟨v, by simp [call_method, h]⟩

/-- C10: `call` never reads or writes `next_call_id` — the counter is
unchanged and the envelope it sends comes from the method object's own
`to_method_call` — while `call_method` increments the counter by exactly
one; the two entry points do not share one monotonic id source. -/
theorem next_call_id_only_used_by_call_method {M R : Type}
    (to_method_call : M → MethodCall) (decode : JsonValue → Option R) (m : M)
    (command : Command) (sf tf : Bool) (rr rr2 : Option Response)
    (conn conn2 : Connection) :
    (call to_method_call decode m sf rr conn).conn.next_call_id = conn.next_call_id
  ∧ (call to_method_call decode m sf rr conn).trace.head?
        = some (.sendFrame (to_method_call m))
  ∧ (call_method decode command tf rr2 conn2).conn.next_call_id
        = conn2.next_call_id + 1 := by
  refine ⟨?_, ?_, ?_⟩
  · cases sf with
    | true => rfl
    | false =>
        cases rr with
        | none => rfl
        | some r =>
            cases h : decode r.result with
            | none => simp [call, h]
            | some v => simp [call, h]
  · cases sf with
    | true => rfl
    | false =>
        cases rr with
        | none => rfl
        | some r =>
            cases h : decode r.result with
            | none => simp [call, h]
            | some v => simp [call, h]
  · cases tf with
    | true => rfl
    | false =>
        cases rr2 with
        | none => rfl
        | some r =>
            cases h : decode r.result with
            | none => simp [call_method, h]
            | some v => simp [call_method, h]

/-- The connection state after one `call_method` invocation with a
successful send: the counter advances by one, the allocated id is registered,
and the envelope carrying that id is appended to the wire. -/
theorem call_method_conn_eq {R : Type} (decode : JsonValue → Option R)
    (command : Command) (rr : Option Response) (conn : Connection) :
    (call_method decode command false rr conn).conn
      = { next_call_id := conn.next_call_id + 1,
          pending_calls := conn.pending_calls ++ [conn.next_call_id],
          sent_frames := conn.sent_frames ++
            [{ id := conn.next_call_id, method := command.command_name,
               params := command.params }] } := by
  cases rr with
  | none => rfl
  | some r =>
      cases h : decode r.result with
      | none => simp [call_method, h]
      | some v => simp [call_method, h]

/-- A run of K consecutive `call_method` invocations on a connection, each
with a successful transport send; the response delivered to each call is
given by the oracle `recv_results` (a disconnected slot or an undecodable
result panics that caller, but only after the envelope was already sent, so
the wire content is unaffected). -/
def runCallMethods {R : Type} (decode : JsonValue → Option R) (command : Command)
    (recv_results : Nat → Option Response) : Nat → Connection → Connection
  | 0, conn => conn
  | k + 1, conn =>
      runCallMethods decode command recv_results k
        (call_method decode command false (recv_results conn.next_call_id) conn).conn

/-- After a run of K `call_method` invocations the wire holds the previous
frames followed by one frame per call, whose ids count up from the starting
counter, and the counter has advanced by K. -/
theorem runCallMethods_spec {R : Type} (decode : JsonValue → Option R)
    (command : Command) (recv_results : Nat → Option Response) :
    ∀ (K : Nat) (conn : Connection),
      (runCallMethods decode command recv_results K conn).sent_frames
          = conn.sent_frames ++ (List.range' conn.next_call_id K).map
              (fun i => { id := i, method := command.command_name,
                          params := command.params })
        ∧ (runCallMethods decode command recv_results K conn).next_call_id
          = conn.next_call_id + K := by
  intro K
  induction K with
  | zero => intro conn; simp [runCallMethods]
  | succ k ih =>
      intro conn
      have hstep := call_method_conn_eq decode command
        (recv_results conn.next_call_id) conn
      have hrec := ih (call_method decode command false
        (recv_results conn.next_call_id) conn).conn
      rw [hstep] at hrec
      constructor
      · rw [runCallMethods, hstep, hrec.1]
        simp [List.range'_succ, List.append_assoc]
      · rw [runCallMethods, hstep, hrec.2]
        show conn.next_call_id + 1 + k = conn.next_call_id + (k + 1)
        rw [Nat.add_assoc, Nat.add_comm 1 k]

/-- Membership face of List.range as a Finset. -/
theorem range_list_toFinset (K : Nat) : (List.range K).toFinset = Finset.range K := by
  ext x
  simp [List.mem_toFinset, List.mem_range, Finset.mem_range]

/-- C1: across a run of K call invocations on a fresh connection, the ids
emitted on the wire are exactly 0, 1, ..., K-1 in that order — so the set of
emitted ids equals the range of K and has cardinality K: ids start at 0,
increase by exactly one per call, and are never reused. -/
theorem call_ids_zero_to_k {R : Type} (decode : JsonValue → Option R)
    (command : Command) (recv_results : Nat → Option Response) (K : Nat) :
    ((runCallMethods decode command recv_results K Connection.new).sent_frames.map
          MethodCall.id
        = List.range K)
  ∧ (((runCallMethods decode command recv_results K Connection.new).sent_frames.map
          MethodCall.id).toFinset
        = Finset.range K)
  ∧ (((runCallMethods decode command recv_results K Connection.new).sent_frames.map
          MethodCall.id).toFinset.card
        = K) := by
  have h := (runCallMethods_spec decode command recv_results K Connection.new).1
  have hids : (runCallMethods decode command recv_results K Connection.new).sent_frames.map
      MethodCall.id = List.range K := by
    rw [h]
    simp only [Connection.new, List.nil_append, List.map_map]
    rw [List.range_eq_range']
    have : (MethodCall.id ∘ fun i =>
        ({ id := i, method := command.command_name, params := command.params } : MethodCall))
          = fun i => i := rfl
    rw [this]
    simp
  refine ⟨hids, ?_, ?_⟩
  · rw [hids, range_list_toFinset]
  · rw [hids, range_list_toFinset, Finset.card_range]
